import Mathlib

set_option maxHeartbeats 1000000

/-!
Shallow embedding of the render-state and accumulation engine of the
arjpeg/raytracer repository (src/camera.rs, src/scene.rs, src/gfx_context.rs,
src/app.rs), together with proofs about its specification.

Conventions of the embedding:
- f32 scalars that flow through trigonometry are idealised as real numbers;
  f32 data that is only stored, copied and compared is idealised as rationals.
- u32 counters that are incremented are taken modulo 2 ^ 32.
- GPU buffers and bind groups are modelled by their size together with an
  allocation generation number drawn from a per-owner monotone counter; the
  generation stands for the identity of the underlying GPU object, so a fresh
  allocation is visible as a fresh generation.
-/

/-! # src/camera.rs -/

/-- glam::Vec3 with real components. -/
structure Vec3 where
  x : ℝ
  y : ℝ
  z : ℝ

/-- glam::Vec3::length. -/
noncomputable def Vec3.length (v : Vec3) : ℝ :=
  Real.sqrt (v.x ^ 2 + v.y ^ 2 + v.z ^ 2)

/-- glam::Vec3::normalize: the vector scaled by the reciprocal of its length. -/
noncomputable def Vec3.normalize (v : Vec3) : Vec3 :=
  ⟨v.x / v.length, v.y / v.length, v.z / v.length⟩

/-- f32::to_degrees. -/
noncomputable def toDegrees (x : ℝ) : ℝ := x * (180 / Real.pi)

/-- f32::to_radians. -/
noncomputable def toRadians (x : ℝ) : ℝ := x * (Real.pi / 180)

/-- f32::atan2(y, x): four-quadrant arctangent, on the Rust convention that the
first argument is the ordinate. NaN and signed-zero behaviour is outside the
idealisation; atan2 0 0 = 0 as in Rust. -/
noncomputable def atan2 (y x : ℝ) : ℝ :=
  if 0 < x then Real.arctan (y / x)
  else if x < 0 then
    if 0 ≤ y then Real.arctan (y / x) + Real.pi else Real.arctan (y / x) - Real.pi
  else
    if 0 < y then Real.pi / 2 else if y < 0 then -(Real.pi / 2) else 0

/-- The fps camera of src/camera.rs. -/
structure Camera where
  eye : Vec3
  yaw : ℝ
  pitch : ℝ
  moved : Bool

/-- Camera::new_facing (src/camera.rs lines 20-32): destructures the normalized
direction and stores pitch = asin(y) and yaw = atan2(z, x), both in degrees. -/
noncomputable def Camera.new_facing (position forward : Vec3) : Camera :=
  let n := forward.normalize
  { eye := position
    yaw := toDegrees (atan2 n.z n.x)
    pitch := toDegrees (Real.arcsin n.y)
    moved := false }

/-- Modelled from the spec: the constructor the specification describes, with
yaw = atan2(dir.x, dir.z) and pitch = asin(-dir.y); written only to be compared
with Camera.new_facing, which is translated from the source. -/
noncomputable def Camera.new_facing_spec (position forward : Vec3) : Camera :=
  let n := forward.normalize
  { eye := position
    yaw := toDegrees (atan2 n.x n.z)
    pitch := toDegrees (Real.arcsin (-n.y))
    moved := false }

/-- Camera::forward (src/camera.rs lines 34-41). -/
noncomputable def Camera.forward (c : Camera) : Vec3 :=
  Vec3.normalize
    { x := Real.cos (toRadians c.yaw) * Real.cos (toRadians c.pitch)
      y := Real.sin (toRadians c.pitch)
      z := Real.sin (toRadians c.yaw) * Real.cos (toRadians c.pitch) }

/-- The one field of egui::InputState that Camera::handle_mouse reads. -/
structure InputState where
  primary_down : Bool

/-- f32::clamp(lo, hi) for lo ≤ hi. -/
noncomputable def clampF (x lo hi : ℝ) : ℝ := max lo (min x hi)

/-- Camera::handle_mouse (src/camera.rs lines 95-111): when the primary mouse
button is down, add the scaled delta to yaw, subtract from pitch, clamp pitch
to [-89, 89] and set moved when the delta was non-zero. -/
noncomputable def Camera.handle_mouse (c : Camera) (input : InputState)
    (delta : ℝ × ℝ) : Camera :=
  if input.primary_down then
    let dx := delta.1 * 0.1
    let dy := delta.2 * 0.1
    { c with
      yaw := c.yaw + dx
      pitch := clampF (c.pitch - dy) (-89) 89
      moved := if dx ≠ 0 ∨ dy ≠ 0 then true else c.moved }
  else c

/-! # src/scene.rs -/

/-- A GPU buffer, modelled by its size (element count for storage buffers,
byte count for the accumulation buffer) and the allocation generation that
stands for the identity of the GPU object. -/
structure GpuBuffer where
  len : ℕ
  gen : ℕ
deriving DecidableEq

/-- The Sphere primitive of src/scene.rs (padding omitted, it is constant). -/
structure Sphere where
  position : ℚ × ℚ × ℚ × ℚ
  radius : ℚ
  material_index : ℕ
deriving DecidableEq

/-- The Material of src/scene.rs. -/
structure Material where
  albedo : ℚ × ℚ × ℚ
  roughness : ℚ
  emission_color : ℚ × ℚ × ℚ
  emission_strength : ℚ
deriving DecidableEq

/-- The scene bind group, recorded as the generations of the two buffers it
references plus its own allocation generation. -/
structure SceneBindGroup where
  spheresGen : ℕ
  materialsGen : ℕ
  gen : ℕ
deriving DecidableEq

/-- The Scene of src/scene.rs. The alloc field is the next fresh generation for
GPU objects created by this scene (a model artifact standing for GPU object
identity). -/
structure Scene where
  spheres : List Sphere
  materials : List Material
  spheres_buffer : GpuBuffer
  materials_buffer : GpuBuffer
  bind_group : SceneBindGroup
  spheres_size_changed : Bool
  materials_size_changed : Bool
  alloc : ℕ

/-- Scene::new (src/scene.rs lines 61-91): one default sphere and one default
material, freshly created buffers for each, and a bind group referencing both. -/
def Scene.new : Scene :=
  let spheres : List Sphere :=
    [{ position := (0, 0, 0, 0), radius := 0.5, material_index := 0 }]
  let materials : List Material :=
    [{ albedo := (0.6, 0.2, 0.7), roughness := 0.2,
       emission_color := (0, 0, 0), emission_strength := 0 }]
  { spheres := spheres
    materials := materials
    spheres_buffer := ⟨spheres.length, 0⟩
    materials_buffer := ⟨materials.length, 1⟩
    bind_group := ⟨0, 1, 2⟩
    spheres_size_changed := false
    materials_size_changed := false
    alloc := 3 }

/-- Scene::add_sphere (src/scene.rs lines 93-96). -/
def Scene.add_sphere (s : Scene) (sphere : Sphere) : Scene :=
  { s with
    spheres := s.spheres ++ [sphere]
    spheres_size_changed := true }

/-- Modelled from the spec: Scene::add_material is called from App::ui
(src/app.rs line 273) but its definition is missing from src/scene.rs; the
spec says it appends the material and sets materials_dirty = true. -/
def Scene.add_material (s : Scene) (m : Material) : Scene :=
  { s with
    materials := s.materials ++ [m]
    materials_size_changed := true }

/-- Scene::update_buffers (src/scene.rs lines 102-130): remember whether either
size changed, reallocate each buffer whose size changed (clearing its flag),
rebuild the bind group once when either buffer was reallocated, then upload the
current sphere and material contents with queue.write_buffer (the uploads change
no modelled field, since the buffers already have the matching sizes). -/
def Scene.update_buffers (s : Scene) : Scene :=
  let recreate_bind_group := s.spheres_size_changed || s.materials_size_changed
  let s1 :=
    if s.spheres_size_changed then
      { s with
        spheres_size_changed := false
        spheres_buffer := ⟨s.spheres.length, s.alloc⟩
        alloc := s.alloc + 1 }
    else s
  let s2 :=
    if s1.materials_size_changed then
      { s1 with
        materials_size_changed := false
        materials_buffer := ⟨s1.materials.length, s1.alloc⟩
        alloc := s1.alloc + 1 }
    else s1
  if recreate_bind_group then
    { s2 with
      bind_group := ⟨s2.spheres_buffer.gen, s2.materials_buffer.gen, s2.alloc⟩
      alloc := s2.alloc + 1 }
  else s2

/-- One scene-store edit delivered by the UI collaborator. -/
inductive SceneOp where
  | addSphere : Sphere → SceneOp
  | addMaterial : Material → SceneOp

def Scene.applyOp (s : Scene) : SceneOp → Scene
  | .addSphere sphere => s.add_sphere sphere
  | .addMaterial m => s.add_material m

def Scene.applyOps (s : Scene) (ops : List SceneOp) : Scene :=
  ops.foldl Scene.applyOp s

/-- A scene whose cleared dirty flags are honest: a clear flag means the
corresponding GPU buffer already has the size of the collection. -/
def Scene.SizeSync (s : Scene) : Prop :=
  (s.spheres_size_changed = false → s.spheres_buffer.len = s.spheres.length) ∧
  (s.materials_size_changed = false → s.materials_buffer.len = s.materials.length)

/-! # src/gfx_context.rs -/

/-- The RenderUniform of src/gfx_context.rs. The inverse_projection,
inverse_view and light_direction fields are omitted from the model: they are
pure functions of the camera and fixed constants and no claim observes them. -/
structure RenderUniform where
  aspect_ratio : ℚ
  sky_color : ℚ × ℚ × ℚ
  time : ℚ
  dimensions : ℕ × ℕ
  frames_accumulated : ℕ
  accumulate : Bool
deriving DecidableEq

/-- The Sphere of src/gfx_context.rs (the internal default scene uses an older
sphere layout than src/scene.rs; renamed GfxSphere to avoid the clash). -/
structure GfxSphere where
  position : ℚ × ℚ × ℚ × ℚ
  color : ℚ × ℚ × ℚ
  radius : ℚ
  roughness : ℚ
deriving DecidableEq

/-- The Scene of src/gfx_context.rs (renamed GfxScene to avoid the clash with
the Scene of src/scene.rs). -/
structure GfxScene where
  spheres : List GfxSphere
  size_changed : Bool
deriving DecidableEq

/-- The render data bind group: generations of the uniform and storage buffers
it references plus its own allocation generation. -/
structure RenderBindGroup where
  uniformGen : ℕ
  storageGen : ℕ
  gen : ℕ
deriving DecidableEq

/-- The accumulation bind group: generation of the buffer it references plus
its own allocation generation. -/
structure AccumBindGroup where
  bufferGen : ℕ
  gen : ℕ
deriving DecidableEq

/-- The AccumulationBuffer of src/gfx_context.rs; the bind group layout is a
fixed value and is not modelled. -/
structure AccumulationBuffer where
  bind_group : AccumBindGroup
  buffer : GpuBuffer
deriving DecidableEq

/-- AccumulationBuffer::calculate_bytes (src/gfx_context.rs lines 595-597):
width * height * size_of::<Vec4>(), with size_of::<Vec4>() = 16 bytes. -/
def AccumulationBuffer.calculate_bytes (size : ℕ × ℕ) : ℕ :=
  size.1 * size.2 * 16

/-- AccumulationBuffer::new (src/gfx_context.rs lines 567-593): a buffer of
calculate_bytes size and a bind group referencing it. Returns the buffer
together with the advanced allocation counter. -/
def AccumulationBuffer.new (size : ℕ × ℕ) (alloc : ℕ) : AccumulationBuffer × ℕ :=
  let buffer : GpuBuffer := ⟨AccumulationBuffer.calculate_bytes size, alloc⟩
  ({ bind_group := ⟨buffer.gen, alloc + 1⟩, buffer := buffer }, alloc + 2)

/-- AccumulationBuffer::reset (src/gfx_context.rs lines 619-622): a fresh
buffer of the given size and a fresh bind group referencing it (the layout is
reused). -/
def AccumulationBuffer.reset (size : ℕ × ℕ) (alloc : ℕ) : AccumulationBuffer × ℕ :=
  let buffer : GpuBuffer := ⟨AccumulationBuffer.calculate_bytes size, alloc⟩
  ({ bind_group := ⟨buffer.gen, alloc + 1⟩, buffer := buffer }, alloc + 2)

/-- The GfxContext of src/gfx_context.rs. Fields that never vary and are
observed by no claim (device, queue, pipeline, egui renderer, surface handle)
are omitted. window_size models window.inner_size(); it is written by the
windowing system, not by GfxContext itself. -/
structure GfxContext where
  window_size : ℕ × ℕ
  surface_config : ℕ × ℕ
  render_uniform : RenderUniform
  render_uniform_buffer : GpuBuffer
  scene : GfxScene
  scene_storage_buffer : GpuBuffer
  render_data_bind_group : RenderBindGroup
  accumulation_buffer : AccumulationBuffer
  alloc : ℕ

/-- RenderUniform::new (src/gfx_context.rs lines 486-501). -/
def RenderUniform.new (size : ℕ × ℕ) : RenderUniform :=
  { aspect_ratio := (size.1 : ℚ) / (size.2 : ℚ)
    sky_color := (0.01, 0.01, 0.01)
    time := 0
    dimensions := size
    frames_accumulated := 0
    accumulate := true }

/-- The default internal scene built in GfxContext::new
(src/gfx_context.rs lines 112-137). -/
def GfxScene.default : GfxScene :=
  { spheres :=
      [{ position := (0, -12, 0, 0), color := (0, 0, 1), radius := 12, roughness := 0.3 },
       { position := (0, 0.6, 0, 0), color := (1, 1, 1), radius := 0.5, roughness := 0.7 },
       { position := (-2.61, 0, 3.91, 0), color := (1, 0, 0), radius := 2.75, roughness := 0.7 }]
    size_changed := false }

/-- GfxContext::new (src/gfx_context.rs lines 84-178), restricted to the
modelled fields: configure the surface at the window size, build the render
uniform and its buffer, the default scene and its storage buffer, the render
data bind group referencing both buffers, and the accumulation buffer sized to
the window. The camera argument of the source only feeds the omitted matrix
fields, so the model does not take it. -/
def GfxContext.new (size : ℕ × ℕ) : GfxContext :=
  let render_uniform_buffer : GpuBuffer := ⟨1, 0⟩
  let scene := GfxScene.default
  let scene_storage_buffer : GpuBuffer := ⟨scene.spheres.length, 1⟩
  let (accumulation_buffer, alloc) := AccumulationBuffer.new size 3
  { window_size := size
    surface_config := size
    render_uniform := RenderUniform.new size
    render_uniform_buffer := render_uniform_buffer
    scene := scene
    scene_storage_buffer := scene_storage_buffer
    render_data_bind_group := ⟨render_uniform_buffer.gen, scene_storage_buffer.gen, 2⟩
    accumulation_buffer := accumulation_buffer
    alloc := alloc }

/-- GfxContext::reset_accumulation (src/gfx_context.rs lines 477-482): reset
the accumulation buffer at the current window inner size, then set
frames_accumulated to 1. -/
def GfxContext.reset_accumulation (g : GfxContext) : GfxContext :=
  let (ab, alloc) := AccumulationBuffer.reset g.window_size g.alloc
  { g with
    accumulation_buffer := ab
    render_uniform := { g.render_uniform with frames_accumulated := 1 }
    alloc := alloc }

/-- GfxContext::resize (src/gfx_context.rs lines 262-277): assert both extents
positive (none models the assertion tripping), reconfigure the surface at the
new size, update aspect_ratio and dimensions, then reset accumulation. -/
def GfxContext.resize (g : GfxContext) (size : ℕ × ℕ) : Option GfxContext :=
  if size.1 = 0 ∨ size.2 = 0 then none
  else
    some (GfxContext.reset_accumulation
      { g with
        surface_config := size
        render_uniform :=
          { g.render_uniform with
            aspect_ratio := (size.1 : ℚ) / (size.2 : ℚ)
            dimensions := size } })

/-- GfxContext::update_buffers (src/gfx_context.rs lines 279-318): recompute
the inverse matrices from the camera (omitted, unobserved), advance time by
0.01, increment frames_accumulated, consume camera.moved with a reset, then
reallocate the internal scene storage buffer and rebuild the render data bind
group when the internal scene size changed, and finally upload the scene
contents and the uniform struct (the uploads change no modelled field). -/
def GfxContext.update_buffers (g0 : GfxContext) (camera : Camera) :
    GfxContext × Camera :=
  let g1 :=
    { g0 with
      render_uniform :=
        { g0.render_uniform with
          time := g0.render_uniform.time + 0.01
          frames_accumulated := (g0.render_uniform.frames_accumulated + 1) % 2 ^ 32 } }
  let step2 :=
    if camera.moved then
      (g1.reset_accumulation, { camera with moved := false })
    else (g1, camera)
  let g2 := step2.1
  let g3 :=
    if g2.scene.size_changed then
      let buf : GpuBuffer := ⟨g2.scene.spheres.length, g2.alloc⟩
      { g2 with
        scene := { g2.scene with size_changed := false }
        scene_storage_buffer := buf
        render_data_bind_group := ⟨g2.render_uniform_buffer.gen, buf.gen, g2.alloc + 1⟩
        alloc := g2.alloc + 2 }
    else g2
  (g3, step2.2)

/-- The observable part of a GfxContext: everything except the allocation
generations, which stand for GPU object identity rather than state. -/
structure GfxObservable where
  window_size : ℕ × ℕ
  surface_config : ℕ × ℕ
  render_uniform : RenderUniform
  scene : GfxScene
  uniform_len : ℕ
  storage_len : ℕ
  accum_len : ℕ
deriving DecidableEq

def GfxContext.observable (g : GfxContext) : GfxObservable :=
  { window_size := g.window_size
    surface_config := g.surface_config
    render_uniform := g.render_uniform
    scene := g.scene
    uniform_len := g.render_uniform_buffer.len
    storage_len := g.scene_storage_buffer.len
    accum_len := g.accumulation_buffer.buffer.len }

/-- Well-formedness of the allocation bookkeeping: every live generation is
below the counter. -/
def GfxContext.WF (g : GfxContext) : Prop :=
  g.accumulation_buffer.buffer.gen < g.alloc ∧
  g.accumulation_buffer.bind_group.gen < g.alloc

/-! # src/app.rs -/

/-- The App of src/app.rs, restricted to the fields the claims observe. The
window is shared between App and GfxContext through an Arc, so the window
inner size lives once, inside the GfxContext model. -/
structure App where
  gfx : GfxContext
  camera : Camera
  scene : Scene

/-- App::new (src/app.rs lines 53-77): camera facing negative Z from
(0, 1, 4), a GfxContext over the 1920 x 1080 window, and the default scene. -/
noncomputable def App.init : App :=
  { gfx := GfxContext.new (1920, 1080)
    camera := Camera.new_facing ⟨0, 1, 4⟩ ⟨0, 0, -1⟩
    scene := Scene.new }

/-- The WindowEvent::Resized arm of App::window_event (src/app.rs line 115):
the windowing system has already updated the window inner size to the new
value it delivers with the event, and the handler passes it to
GfxContext::resize. -/
def App.resized (a : App) (size : ℕ × ℕ) : Option App :=
  (GfxContext.resize { a.gfx with window_size := size } size).map
    fun g => { a with gfx := g }

/-- The accumulate checkbox of App::ui (src/app.rs lines 225-235): write the
new value and reset accumulation exactly when it differs from the previous
one. -/
def App.setAccumulate (a : App) (b : Bool) : App :=
  if b ≠ a.gfx.render_uniform.accumulate then
    { a with
      gfx := GfxContext.reset_accumulation
        { a.gfx with
          render_uniform := { a.gfx.render_uniform with accumulate := b } } }
  else
    { a with
      gfx :=
        { a.gfx with
          render_uniform := { a.gfx.render_uniform with accumulate := b } } }

/-- The buffer-reconciliation step of App::update (src/app.rs lines 144-145):
Scene::update_buffers followed by GfxContext::update_buffers. -/
def App.reconcile (a : App) : App :=
  let scene := a.scene.update_buffers
  let step := a.gfx.update_buffers a.camera
  { gfx := step.1, camera := step.2, scene := scene }

/-- The error cases of Surface::get_current_texture as matched in App::update. -/
inductive SurfaceError where
  | timeout
  | outdated
  | lost
  | outOfMemory

/-- The surface-error match of App::update (src/app.rs lines 165-174): Timeout
is ignored, OutOfMemory panics (modelled as none), Lost and Outdated resize
the GfxContext to the current window inner size. -/
def App.handleRenderError (a : App) : SurfaceError → Option App
  | .timeout => some a
  | .outOfMemory => none
  | .lost => (a.gfx.resize a.gfx.window_size).map fun g => { a with gfx := g }
  | .outdated => (a.gfx.resize a.gfx.window_size).map fun g => { a with gfx := g }

/-- A concrete reachable-shaped state used as input for counterexamples: the
initial app after five accumulated frames, with one freshly added sphere
pending reconciliation and the camera at rest. -/
noncomputable def cexBase : App :=
  { App.init with
    gfx :=
      { App.init.gfx with
        render_uniform :=
          { App.init.gfx.render_uniform with frames_accumulated := 5 } }
    scene := Scene.new.add_sphere { position := (1, 1, 1, 0), radius := 1, material_index := 0 } }

/-! # Helper lemmas -/

theorem Vec3.length_eq_one (v : Vec3) (h : v.x ^ 2 + v.y ^ 2 + v.z ^ 2 = 1) :
    v.length = 1 := by
  rw [Vec3.length, h, Real.sqrt_one]

theorem Vec3.normalize_of_length_one (v : Vec3) (h : v.length = 1) :
    v.normalize = v := by
  simp [Vec3.normalize, h]

theorem forward_unit (c : Camera) : c.forward.length = 1 := by
  have hbase :
      (Real.cos (toRadians c.yaw) * Real.cos (toRadians c.pitch)) ^ 2
        + Real.sin (toRadians c.pitch) ^ 2
        + (Real.sin (toRadians c.yaw) * Real.cos (toRadians c.pitch)) ^ 2 = 1 := by
    have h1 := Real.sin_sq_add_cos_sq (toRadians c.pitch)
    have h2 := Real.sin_sq_add_cos_sq (toRadians c.yaw)
    nlinarith [h1, h2]
  have hlen :
      (Vec3.mk (Real.cos (toRadians c.yaw) * Real.cos (toRadians c.pitch))
        (Real.sin (toRadians c.pitch))
        (Real.sin (toRadians c.yaw) * Real.cos (toRadians c.pitch))).length = 1 :=
    Vec3.length_eq_one _ hbase
  rw [Camera.forward, Vec3.normalize_of_length_one _ hlen]
  exact hlen

theorem up_normalize : (Vec3.mk 0 1 0).normalize = Vec3.mk 0 1 0 := by
  refine Vec3.normalize_of_length_one _ ?_
  refine Vec3.length_eq_one _ ?_
  norm_num

theorem new_facing_up_pitch (p : Vec3) :
    (Camera.new_facing p (Vec3.mk 0 1 0)).pitch = 90 := by
  have hπ := Real.pi_ne_zero
  simp only [Camera.new_facing, up_normalize]
  rw [Real.arcsin_one, toDegrees]
  field_simp
  ring

theorem new_facing_spec_up_pitch (p : Vec3) :
    (Camera.new_facing_spec p (Vec3.mk 0 1 0)).pitch = -90 := by
  have hπ := Real.pi_ne_zero
  simp only [Camera.new_facing_spec, up_normalize]
  rw [show (-(1 : ℝ) = -1) from rfl, Real.arcsin_neg_one, toDegrees]
  field_simp
  ring

theorem clampF_mem (x : ℝ) : -89 ≤ clampF x (-89) 89 ∧ clampF x (-89) 89 ≤ 89 :=
  ⟨le_max_left _ _, max_le (by norm_num) (min_le_right _ _)⟩

theorem Scene.applyOp_sizeSync (s : Scene) (op : SceneOp) (h : s.SizeSync) :
    (s.applyOp op).SizeSync := by
  cases op with
  | addSphere sphere =>
    exact ⟨by simp [Scene.applyOp, Scene.add_sphere],
      by simpa [Scene.applyOp, Scene.add_sphere] using h.2⟩
  | addMaterial m =>
    exact ⟨by simpa [Scene.applyOp, Scene.add_material] using h.1,
      by simp [Scene.applyOp, Scene.add_material]⟩

theorem Scene.applyOps_sizeSync (s : Scene) (ops : List SceneOp) (h : s.SizeSync) :
    (s.applyOps ops).SizeSync := by
  induction ops generalizing s with
  | nil => exact h
  | cons op ops ih => exact ih _ (s.applyOp_sizeSync op h)

/-- Full characterisation of one Scene::update_buffers reconciliation on a
state whose cleared flags are honest: the CPU-side collections are untouched,
both buffers end sized to their collections, both flags end cleared, the
allocation counter advances by exactly one step per reallocated buffer plus
exactly one step for the bind group when either buffer was reallocated, and
the bind group ends referencing the current buffers when rebuilt and is left
alone otherwise. -/
theorem Scene.update_buffers_spec (t : Scene) (h : t.SizeSync) :
    t.update_buffers.spheres = t.spheres ∧
    t.update_buffers.materials = t.materials ∧
    t.update_buffers.spheres_buffer.len = t.spheres.length ∧
    t.update_buffers.materials_buffer.len = t.materials.length ∧
    t.update_buffers.spheres_size_changed = false ∧
    t.update_buffers.materials_size_changed = false ∧
    t.update_buffers.alloc =
      t.alloc + cond t.spheres_size_changed 1 0 + cond t.materials_size_changed 1 0
        + cond (t.spheres_size_changed || t.materials_size_changed) 1 0 ∧
    ((t.spheres_size_changed || t.materials_size_changed) = true →
      t.update_buffers.bind_group.spheresGen = t.update_buffers.spheres_buffer.gen ∧
      t.update_buffers.bind_group.materialsGen = t.update_buffers.materials_buffer.gen) ∧
    ((t.spheres_size_changed || t.materials_size_changed) = false →
      t.update_buffers.bind_group = t.bind_group) := by
  obtain ⟨h1, h2⟩ := h
  cases hsp : t.spheres_size_changed <;> cases hmt : t.materials_size_changed <;>
    simp [Scene.update_buffers, hsp, hmt, h1, h2]

/-- One GfxContext::update_buffers call ends with frames_accumulated = 1 when
the camera had moved and with the incremented counter otherwise, and always
hands back a camera with moved cleared. -/
theorem GfxContext.update_buffers_frames (g : GfxContext) (camera : Camera) :
    ((g.update_buffers camera).1.render_uniform.frames_accumulated
      = if camera.moved then 1
        else (g.render_uniform.frames_accumulated + 1) % 2 ^ 32) ∧
    (g.update_buffers camera).2.moved = false := by
  cases hm : camera.moved <;> cases hsc : g.scene.size_changed <;>
    simp [GfxContext.update_buffers, GfxContext.reset_accumulation,
      AccumulationBuffer.reset, hm, hsc]

/-! # Claims -/

/-- Claim C1 counterexample: the claim that every one of the five invalidating
triggers drives frames_accumulated back to 1 on the very next reconciliation
is false at a concrete state: with frames_accumulated = 5, a pending scene
structural change (spheres dirty) and the camera at rest, the next
reconciliation yields 6, not 1 — a scene structural change never resets
accumulation; and after an explicit reset_accumulation the next reconciliation
yields 2, not 1, because update_buffers increments the counter first. -/
theorem accumulation_invalidation_counterexample :
    cexBase.scene.spheres_size_changed = true ∧
    cexBase.camera.moved = false ∧
    cexBase.gfx.render_uniform.frames_accumulated = 5 ∧
    (App.reconcile cexBase).gfx.render_uniform.frames_accumulated = 6 ∧
    ¬ (App.reconcile cexBase).gfx.render_uniform.frames_accumulated = 1 ∧
    (App.reconcile
        { cexBase with gfx := cexBase.gfx.reset_accumulation }).gfx.render_uniform.frames_accumulated = 2 ∧
    ¬ (App.reconcile
        { cexBase with gfx := cexBase.gfx.reset_accumulation }).gfx.render_uniform.frames_accumulated = 1 := by
  refine ⟨rfl, by decide, rfl, by decide, by decide, by decide, by decide⟩

/-- Claim C1 (amended): a resize event, an accumulate-toggle flip and an
explicit reset_accumulation each set frames_accumulated to 1 immediately at
the trigger itself; a camera move pending at the top of a frame makes the next
reconciliation end with exactly 1 (the reset is ORed with any simultaneous
triggers, not counted) and clears moved; a scene structural change does not
reset accumulation at all: a reconciliation with no pending camera move
increments frames_accumulated by one (mod 2 ^ 32) regardless of the dirty
flags, so a trigger fired before the reconciliation leaves the counter at 2
after it. -/
theorem accumulation_invalidation_amended (a : App) (b : Bool) (size : ℕ × ℕ)
    (hb : b ≠ a.gfx.render_uniform.accumulate) (hw : 0 < size.1) (hh : 0 < size.2) :
    (∃ x, a.resized size = some x ∧ x.gfx.render_uniform.frames_accumulated = 1) ∧
    (a.setAccumulate b).gfx.render_uniform.frames_accumulated = 1 ∧
    a.gfx.reset_accumulation.render_uniform.frames_accumulated = 1 ∧
    (a.camera.moved = true →
      a.reconcile.gfx.render_uniform.frames_accumulated = 1 ∧
      a.reconcile.camera.moved = false) ∧
    (a.camera.moved = false →
      a.reconcile.gfx.render_uniform.frames_accumulated
        = (a.gfx.render_uniform.frames_accumulated + 1) % 2 ^ 32 ∧
      a.reconcile.camera.moved = false) := by
  have hspec := GfxContext.update_buffers_frames a.gfx a.camera
  have hcond : ¬ (size.1 = 0 ∨ size.2 = 0) := by omega
  refine ⟨⟨{ a with
      gfx := GfxContext.reset_accumulation
        { a.gfx with
          window_size := size
          surface_config := size
          render_uniform :=
            { a.gfx.render_uniform with
              aspect_ratio := (size.1 : ℚ) / (size.2 : ℚ)
              dimensions := size } } }, ?_, rfl⟩, ?_, rfl,
    fun hm => ⟨?_, ?_⟩, fun hm => ⟨?_, ?_⟩⟩
  · simp [App.resized, GfxContext.resize, hcond]
  · unfold App.setAccumulate
    rw [if_pos hb]
    rfl
  · have := hspec.1
    rw [hm] at this
    simpa [App.reconcile] using this
  · simpa [App.reconcile] using hspec.2
  · have := hspec.1
    rw [hm] at this
    simpa [App.reconcile] using this
  · simpa [App.reconcile] using hspec.2

/-- Claim C1 witness: the amended theorem applied at the initial app, a toggle
to false and a 640 x 480 resize target. -/
theorem accumulation_invalidation_amended_witness :
    (App.setAccumulate App.init false).gfx.render_uniform.frames_accumulated = 1 ∧
    App.init.gfx.reset_accumulation.render_uniform.frames_accumulated = 1 :=
  ⟨(accumulation_invalidation_amended App.init false (640, 480) (by decide)
      (by decide) (by decide)).2.1,
   (accumulation_invalidation_amended App.init false (640, 480) (by decide)
      (by decide) (by decide)).2.2.1⟩

/-- Claim C2: each add appends its element and sets the corresponding dirty
flag; after one reconciliation of any sequence of adds applied to a state with
honest flags, both GPU buffer lengths equal the in-memory collection lengths,
both dirty flags are clear, the allocation counter shows exactly one
bind-group rebuild whenever either buffer was reallocated (even when both
were), and the bind group then references the reallocated buffers, while a
reconciliation with no pending reallocation leaves the bind group alone. -/
theorem scene_adds_then_reconcile (s : Scene) (ops : List SceneOp) (h : s.SizeSync) :
    (∀ sphere, (s.add_sphere sphere).spheres = s.spheres ++ [sphere] ∧
      (s.add_sphere sphere).spheres_size_changed = true ∧
      (s.add_sphere sphere).materials = s.materials ∧
      (s.add_sphere sphere).materials_size_changed = s.materials_size_changed) ∧
    (∀ m, (s.add_material m).materials = s.materials ++ [m] ∧
      (s.add_material m).materials_size_changed = true ∧
      (s.add_material m).spheres = s.spheres ∧
      (s.add_material m).spheres_size_changed = s.spheres_size_changed) ∧
    (s.applyOps ops).update_buffers.spheres_buffer.len
      = (s.applyOps ops).update_buffers.spheres.length ∧
    (s.applyOps ops).update_buffers.materials_buffer.len
      = (s.applyOps ops).update_buffers.materials.length ∧
    (s.applyOps ops).update_buffers.spheres_size_changed = false ∧
    (s.applyOps ops).update_buffers.materials_size_changed = false ∧
    (s.applyOps ops).update_buffers.alloc
      = (s.applyOps ops).alloc
        + cond (s.applyOps ops).spheres_size_changed 1 0
        + cond (s.applyOps ops).materials_size_changed 1 0
        + cond ((s.applyOps ops).spheres_size_changed
            || (s.applyOps ops).materials_size_changed) 1 0 ∧
    (((s.applyOps ops).spheres_size_changed
        || (s.applyOps ops).materials_size_changed) = true →
      (s.applyOps ops).update_buffers.bind_group.spheresGen
        = (s.applyOps ops).update_buffers.spheres_buffer.gen ∧
      (s.applyOps ops).update_buffers.bind_group.materialsGen
        = (s.applyOps ops).update_buffers.materials_buffer.gen) ∧
    (((s.applyOps ops).spheres_size_changed
        || (s.applyOps ops).materials_size_changed) = false →
      (s.applyOps ops).update_buffers.bind_group = (s.applyOps ops).bind_group) := by
  obtain ⟨e1, e2, e3, e4, e5, e6, e7, e8, e9⟩ :=
    Scene.update_buffers_spec _ (s.applyOps_sizeSync ops h)
  refine ⟨fun sphere => ⟨rfl, rfl, rfl, rfl⟩, fun m => ⟨rfl, rfl, rfl, rfl⟩,
    ?_, ?_, e5, e6, e7, e8, e9⟩
  · rw [e1]; exact e3
  · rw [e2]; exact e4

/-- Claim C2 witness: the theorem applied to the default scene with one added
sphere and one added material. -/
theorem scene_adds_then_reconcile_witness :
    (Scene.new.applyOps
        [SceneOp.addSphere { position := (1, 2, 3, 0), radius := 1, material_index := 0 },
         SceneOp.addMaterial
           { albedo := (1, 0, 0), roughness := 0.5,
             emission_color := (0, 0, 0), emission_strength := 0 }]).update_buffers.spheres_buffer.len
      = (Scene.new.applyOps
        [SceneOp.addSphere { position := (1, 2, 3, 0), radius := 1, material_index := 0 },
         SceneOp.addMaterial
           { albedo := (1, 0, 0), roughness := 0.5,
             emission_color := (0, 0, 0), emission_strength := 0 }]).update_buffers.spheres.length ∧
    (Scene.new.applyOps
        [SceneOp.addSphere { position := (1, 2, 3, 0), radius := 1, material_index := 0 },
         SceneOp.addMaterial
           { albedo := (1, 0, 0), roughness := 0.5,
             emission_color := (0, 0, 0), emission_strength := 0 }]).update_buffers.spheres_size_changed
      = false :=
  ⟨(scene_adds_then_reconcile Scene.new
      [SceneOp.addSphere { position := (1, 2, 3, 0), radius := 1, material_index := 0 },
       SceneOp.addMaterial
         { albedo := (1, 0, 0), roughness := 0.5,
           emission_color := (0, 0, 0), emission_strength := 0 }]
      ⟨fun _ => rfl, fun _ => rfl⟩).2.2.1,
   (scene_adds_then_reconcile Scene.new
      [SceneOp.addSphere { position := (1, 2, 3, 0), radius := 1, material_index := 0 },
       SceneOp.addMaterial
         { albedo := (1, 0, 0), roughness := 0.5,
           emission_color := (0, 0, 0), emission_strength := 0 }]
      ⟨fun _ => rfl, fun _ => rfl⟩).2.2.2.2.1⟩

/-- Claim C3 counterexample: new_facing does not use the formulas the
specification states. At direction (0, 1, 0) the source computes
pitch = asin(y) = +90 degrees, while the spec formula asin(-y) gives -90
degrees, so the pitches differ. -/
theorem new_facing_deviates_from_spec :
    (Camera.new_facing ⟨0, 0, 0⟩ ⟨0, 1, 0⟩).pitch = 90 ∧
    (Camera.new_facing_spec ⟨0, 0, 0⟩ ⟨0, 1, 0⟩).pitch = -90 ∧
    (Camera.new_facing ⟨0, 0, 0⟩ ⟨0, 1, 0⟩).pitch ≠
      (Camera.new_facing_spec ⟨0, 0, 0⟩ ⟨0, 1, 0⟩).pitch := by
  refine ⟨new_facing_up_pitch _, new_facing_spec_up_pitch _, ?_⟩
  rw [new_facing_up_pitch, new_facing_spec_up_pitch]
  norm_num

/-- Claim C3 (amended): new_facing normalizes the direction internally and
derives yaw = atan2(dir.z, dir.x) and pitch = asin(dir.y), both converted to
degrees (the argument order of atan2 and the sign of the pitch argument are
swapped relative to the spec); it is total, stores the given position
unchanged and starts with moved = false. -/
theorem new_facing_amended (p d : Vec3) :
    (Camera.new_facing p d).eye = p ∧
    (Camera.new_facing p d).moved = false ∧
    (Camera.new_facing p d).yaw = toDegrees (atan2 d.normalize.z d.normalize.x) ∧
    (Camera.new_facing p d).pitch = toDegrees (Real.arcsin d.normalize.y) ∧
    d.normalize = ⟨d.x / d.length, d.y / d.length, d.z / d.length⟩ :=
  ⟨rfl, rfl, rfl, rfl, rfl⟩

/-- Claim C4: whenever handle_mouse applies a look delta (the primary button
is down; with it up the body is skipped and no look delta is applied), the
resulting pitch lies within [-89, 89] degrees; and for every yaw and pitch the
derived forward vector has unit length (exactly, in the real-number
idealisation of f32). -/
theorem handle_mouse_pitch_clamped_forward_unit (c : Camera) (input : InputState)
    (delta : ℝ × ℝ) (h : input.primary_down = true) :
    -89 ≤ (c.handle_mouse input delta).pitch ∧
    (c.handle_mouse input delta).pitch ≤ 89 ∧
    (c.handle_mouse input delta).forward.length = 1 ∧
    c.forward.length = 1 := by
  have hpitch : (c.handle_mouse input delta).pitch
      = clampF (c.pitch - delta.2 * 0.1) (-89) 89 := by
    simp [Camera.handle_mouse, h]
  exact ⟨hpitch ▸ (clampF_mem _).1, hpitch ▸ (clampF_mem _).2,
    forward_unit _, forward_unit _⟩

/-- Claim C4 witness: the theorem applied at a camera with out-of-range pitch
100 and a pressed primary button with zero delta. -/
theorem handle_mouse_pitch_clamped_forward_unit_witness :
    -89 ≤ ((Camera.mk ⟨0, 0, 0⟩ 0 100 false).handle_mouse ⟨true⟩ (0, 0)).pitch ∧
    ((Camera.mk ⟨0, 0, 0⟩ 0 100 false).handle_mouse ⟨true⟩ (0, 0)).pitch ≤ 89 ∧
    ((Camera.mk ⟨0, 0, 0⟩ 0 100 false).handle_mouse ⟨true⟩ (0, 0)).forward.length = 1 ∧
    (Camera.mk ⟨0, 0, 0⟩ 0 100 false).forward.length = 1 :=
  handle_mouse_pitch_clamped_forward_unit _ _ _ rfl

/-- Claim C5: add_material appends the material and sets the materials dirty
flag, leaving the spheres, their dirty flag and all GPU-side handles
unchanged. Scene::add_material itself is modelled from the spec, since only
its caller exists under src/. -/
theorem add_material_appends_and_marks (s : Scene) (m : Material) :
    (s.add_material m).materials = s.materials ++ [m] ∧
    (s.add_material m).materials_size_changed = true ∧
    (s.add_material m).spheres = s.spheres ∧
    (s.add_material m).spheres_size_changed = s.spheres_size_changed ∧
    (s.add_material m).spheres_buffer = s.spheres_buffer ∧
    (s.add_material m).materials_buffer = s.materials_buffer ∧
    (s.add_material m).bind_group = s.bind_group :=
  ⟨rfl, rfl, rfl, rfl, rfl, rfl, rfl⟩

/-- Claim C6: the per-frame render failure handling matches the spec taxonomy:
a Timeout leaves the state unchanged (the loop simply retries next tick), Lost
and Outdated reconfigure the output target at the current window size — which
cascades into an accumulation reset via resize — and OutOfMemory aborts the
process (modelled as none) with no recovery; no other effect occurs. -/
theorem render_error_taxonomy (a : App) (hw : 0 < a.gfx.window_size.1)
    (hh : 0 < a.gfx.window_size.2) :
    a.handleRenderError .timeout = some a ∧
    a.handleRenderError .outOfMemory = none ∧
    ∃ g, a.gfx.resize a.gfx.window_size = some g ∧
      a.handleRenderError .lost = some { a with gfx := g } ∧
      a.handleRenderError .outdated = some { a with gfx := g } ∧
      g.render_uniform.frames_accumulated = 1 ∧
      g.surface_config = a.gfx.window_size := by
  have hcond : ¬ (a.gfx.window_size.1 = 0 ∨ a.gfx.window_size.2 = 0) := by omega
  have hresize : a.gfx.resize a.gfx.window_size
      = some (GfxContext.reset_accumulation
          { a.gfx with
            surface_config := a.gfx.window_size
            render_uniform :=
              { a.gfx.render_uniform with
                aspect_ratio :=
                  (a.gfx.window_size.1 : ℚ) / (a.gfx.window_size.2 : ℚ)
                dimensions := a.gfx.window_size } }) := by
    unfold GfxContext.resize
    rw [if_neg hcond]
  refine ⟨rfl, rfl, _, hresize, ?_, ?_, rfl, rfl⟩
  · show (a.gfx.resize a.gfx.window_size).map _ = _
    rw [hresize]
    rfl
  · show (a.gfx.resize a.gfx.window_size).map _ = _
    rw [hresize]
    rfl

/-- Claim C6 witness: the theorem applied at the initial app. -/
theorem render_error_taxonomy_witness :
    App.init.handleRenderError .timeout = some App.init ∧
    App.init.handleRenderError .outOfMemory = none :=
  ⟨(render_error_taxonomy App.init (by decide) (by decide)).1,
   (render_error_taxonomy App.init (by decide) (by decide)).2.1⟩

/-- Claim C7: resize with positive extents succeeds, reconfigures the output
target to that size, updates aspect_ratio and dimensions in the frame uniform
and forces an accumulation reset (frames_accumulated becomes 1); a zero width
or height trips the assertion (modelled none), so the error branch is
unreachable under the positive-size precondition. The size argument is
unconstrained beyond positivity, so resizing to the current size is a valid
path (the witness exercises exactly that no-op-sized case). -/
theorem resize_reconfigures_and_resets (g : GfxContext) (size : ℕ × ℕ)
    (hw : 0 < size.1) (hh : 0 < size.2) :
    (∃ r, g.resize size = some r ∧
      r.surface_config = size ∧
      r.render_uniform.aspect_ratio = (size.1 : ℚ) / (size.2 : ℚ) ∧
      r.render_uniform.dimensions = size ∧
      r.render_uniform.frames_accumulated = 1) ∧
    ∀ bad : ℕ × ℕ, bad.1 = 0 ∨ bad.2 = 0 → g.resize bad = none := by
  have hcond : ¬ (size.1 = 0 ∨ size.2 = 0) := by omega
  constructor
  · refine ⟨GfxContext.reset_accumulation
      { g with
        surface_config := size
        render_uniform :=
          { g.render_uniform with
            aspect_ratio := (size.1 : ℚ) / (size.2 : ℚ)
            dimensions := size } }, ?_, rfl, rfl, rfl, rfl⟩
    unfold GfxContext.resize
    rw [if_neg hcond]
  · intro bad hbad
    unfold GfxContext.resize
    rw [if_pos hbad]

/-- Claim C7 witness: the theorem applied to a context configured at 800 x 600
being resized to the same 800 x 600 (the Scenario C no-op-sized path). -/
theorem resize_reconfigures_and_resets_witness :
    (∃ r, (GfxContext.new (800, 600)).resize (800, 600) = some r ∧
      r.surface_config = (800, 600) ∧
      r.render_uniform.aspect_ratio = ((800, 600).1 : ℚ) / ((800, 600).2 : ℚ) ∧
      r.render_uniform.dimensions = (800, 600) ∧
      r.render_uniform.frames_accumulated = 1) ∧
    ∀ bad : ℕ × ℕ, bad.1 = 0 ∨ bad.2 = 0 →
      (GfxContext.new (800, 600)).resize bad = none :=
  resize_reconfigures_and_resets (GfxContext.new (800, 600)) (800, 600)
    (by decide) (by decide)

/-- Claim C8: the accumulation buffer is always allocated at
width * height * 16 bytes for the current output dimensions — at construction,
on explicit reset (which uses the current window inner size) and on a resize
event — and reset and resize allocate a fresh buffer (a new generation, not an
in-place update of the old one). -/
theorem accumulation_buffer_sized_and_fresh (a : App) (size : ℕ × ℕ)
    (hwf : a.gfx.WF) (hw : 0 < size.1) (hh : 0 < size.2) :
    (GfxContext.new size).accumulation_buffer.buffer.len = size.1 * size.2 * 16 ∧
    a.gfx.reset_accumulation.accumulation_buffer.buffer.len
      = a.gfx.window_size.1 * a.gfx.window_size.2 * 16 ∧
    a.gfx.reset_accumulation.accumulation_buffer.buffer.gen
      ≠ a.gfx.accumulation_buffer.buffer.gen ∧
    (∃ x, a.resized size = some x ∧
      x.gfx.accumulation_buffer.buffer.len = size.1 * size.2 * 16 ∧
      x.gfx.accumulation_buffer.buffer.gen ≠ a.gfx.accumulation_buffer.buffer.gen) := by
  have hcond : ¬ (size.1 = 0 ∨ size.2 = 0) := by omega
  refine ⟨rfl, rfl, ?_, ?_⟩
  · show a.gfx.alloc ≠ a.gfx.accumulation_buffer.buffer.gen
    exact Nat.ne_of_gt hwf.1
  · refine ⟨{ a with
      gfx := GfxContext.reset_accumulation
        { a.gfx with
          window_size := size
          surface_config := size
          render_uniform :=
            { a.gfx.render_uniform with
              aspect_ratio := (size.1 : ℚ) / (size.2 : ℚ)
              dimensions := size } } }, ?_, rfl, ?_⟩
    · simp [App.resized, GfxContext.resize, hcond]
    · show a.gfx.alloc ≠ a.gfx.accumulation_buffer.buffer.gen
      exact Nat.ne_of_gt hwf.1

/-- Claim C8 witness: the theorem applied at the initial app and target size
800 x 600. -/
theorem accumulation_buffer_sized_and_fresh_witness :
    (GfxContext.new (800, 600)).accumulation_buffer.buffer.len = 800 * 600 * 16 ∧
    App.init.gfx.reset_accumulation.accumulation_buffer.buffer.len
      = App.init.gfx.window_size.1 * App.init.gfx.window_size.2 * 16 :=
  ⟨(accumulation_buffer_sized_and_fresh App.init (800, 600)
      ⟨by decide, by decide⟩ (by decide) (by decide)).1,
   (accumulation_buffer_sized_and_fresh App.init (800, 600)
      ⟨by decide, by decide⟩ (by decide) (by decide)).2.1⟩

/-- Claim C9: reset_accumulation is idempotent: for every state, two calls in
a row yield the same observable state (every field except the GPU object
identities, which are necessarily fresh per call) as one call, and
frames_accumulated equals 1 after each call. -/
theorem reset_accumulation_idempotent (g : GfxContext) :
    g.reset_accumulation.reset_accumulation.observable
      = g.reset_accumulation.observable ∧
    g.reset_accumulation.render_uniform.frames_accumulated = 1 ∧
    g.reset_accumulation.reset_accumulation.render_uniform.frames_accumulated = 1 :=
  ⟨rfl, rfl, rfl⟩

/-- Claim C10: the pitch-range invariant is not established at construction:
new_facing with direction (0, 1, 0) produces pitch = 90 degrees, strictly
outside [-89, 89], because new_facing stores the arcsine of the normalized y
component in degrees without clamping; only handle_mouse clamps. -/
theorem new_facing_pitch_unclamped :
    (Camera.new_facing ⟨0, 0, 0⟩ ⟨0, 1, 0⟩).pitch = 90 ∧
    ¬ (Camera.new_facing ⟨0, 0, 0⟩ ⟨0, 1, 0⟩).pitch ≤ 89 := by
  refine ⟨new_facing_up_pitch _, ?_⟩
  rw [new_facing_up_pitch]
  norm_num
